import Mathlib

/-
  Shallow embedding of `src/src/navigation_collision_checker_node.cpp`
  (class NavCollisionChecker): a predictive velocity-safety filter that
  forward-simulates a velocity command and zeroes it when a predicted pose
  collides with the environment.

  Modelling conventions:
  * C++ doubles are modelled as real numbers (ℝ); `std::sin` / `std::cos`
    become `Real.sin` / `Real.cos`.
  * `Eigen::Affine3d` restricted to rigid transforms is modelled as a
    translation vector plus a rotation stored as a quaternion
    (Eigen's rotation-matrix and unit-quaternion representations are
    interchangeable for rigid transforms; `Eigen::Quaterniond(pose.rotation())`
    is then the identity on the stored rotation).
  * The external planning-scene collision query
    (`planning_scene_->checkCollision`) is an opaque oracle
    `World : joint values → Except Unit Bool`; an `Except.error` models a
    query that cannot be completed (a C++ exception), which the node does not
    catch, so it propagates out of `twistCallback`.
  * `robot_state_` is modelled as a joint-name → value map; moveit's
    `jointStateToRobotState` merges a (name, value) list into it.
  * ROS publications are modelled as the returned `TwistOutput` record; the
    per-invocation collision-query count instruments the Collision Oracle
    (the spec's own call-count instrumentation).
  * The C++ loop `for (size_t i = 0; i < p_roll_out_steps_; ++i)` compares a
    64-bit unsigned `i` against the `int` member, which is converted to
    `size_t` (value modulo 2^64): `sizeTOfInt`.
-/

noncomputable section

namespace NavCollisionChecker

/-- Component of `geometry_msgs::Vector3` (three doubles). -/
structure Vector3 where
  x : ℝ
  y : ℝ
  z : ℝ

/-- `geometry_msgs::Twist`: the velocity command, six scalar fields. -/
structure Twist where
  linear : Vector3
  angular : Vector3

/-- A quaternion (Eigen component order x, y, z, w in storage; we keep named
fields). -/
structure Quat where
  x : ℝ
  y : ℝ
  z : ℝ
  w : ℝ

/-- Identity quaternion. -/
def quatId : Quat := Quat.mk 0 0 0 1

/-- Hamilton quaternion product, as used by Eigen for composing rotations. -/
def quatMul (p q : Quat) : Quat :=
  Quat.mk
    (p.w * q.x + p.x * q.w + p.y * q.z - p.z * q.y)
    (p.w * q.y - p.x * q.z + p.y * q.w + p.z * q.x)
    (p.w * q.z + p.x * q.y - p.y * q.x + p.z * q.w)
    (p.w * q.w - p.x * q.x - p.y * q.y - p.z * q.z)

/-- Rotation of a vector by a (unit) quaternion: the rows of Eigen's
`toRotationMatrix` applied to `v`. -/
def quatApply (q : Quat) (v : Vector3) : Vector3 :=
  Vector3.mk
    ((1 - 2 * (q.y ^ 2 + q.z ^ 2)) * v.x + 2 * (q.x * q.y - q.z * q.w) * v.y
      + 2 * (q.x * q.z + q.y * q.w) * v.z)
    (2 * (q.x * q.y + q.z * q.w) * v.x + (1 - 2 * (q.x ^ 2 + q.z ^ 2)) * v.y
      + 2 * (q.y * q.z - q.x * q.w) * v.z)
    (2 * (q.x * q.z - q.y * q.w) * v.x + 2 * (q.y * q.z + q.x * q.w) * v.y
      + (1 - 2 * (q.x ^ 2 + q.y ^ 2)) * v.z)

/-- Squared norm of a quaternion. -/
def quatNormSq (q : Quat) : ℝ := q.x ^ 2 + q.y ^ 2 + q.z ^ 2 + q.w ^ 2

/-- Vector addition. -/
def vadd (u v : Vector3) : Vector3 := Vector3.mk (u.x + v.x) (u.y + v.y) (u.z + v.z)

/-- `Eigen::Affine3d` restricted to a rigid transform: translation plus
rotation (stored as a quaternion). -/
structure Affine3d where
  translation : Vector3
  rot : Quat

/-- Identity transform. -/
def affId : Affine3d := Affine3d.mk (Vector3.mk 0 0 0) quatId

/-- Composition of rigid transforms, `a * b` in Eigen:
linear part multiplies, translation is `a.linear * b.translation + a.translation`. -/
def affComp (a b : Affine3d) : Affine3d :=
  Affine3d.mk (vadd (quatApply a.rot b.translation) a.translation) (quatMul a.rot b.rot)

/-- `Eigen::AngleAxisd(theta, Eigen::Vector3d::UnitZ())` as a quaternion. -/
def angleAxisZ (theta : ℝ) : Quat :=
  Quat.mk 0 0 (Real.sin (theta / 2)) (Real.cos (theta / 2))

/-- The `int_vec` (x, y, theta) computed inside
`NavCollisionChecker::integrateTwist` (lines 206–221): starts at zero; if
`|msg.angular.z| < 0.0001` only x is set to `msg.linear.x * step_time`;
otherwise the circular-arc displacement and angle are filled in. -/
def intVec (msg : Twist) (step_time : ℝ) : Vector3 :=
  if |msg.angular.z| < 0.0001 then
    Vector3.mk (msg.linear.x * step_time) 0 0
  else
    let dist_change := msg.linear.x * step_time
    let angle_change := msg.angular.z * step_time
    let arc_radius := dist_change / angle_change
    Vector3.mk (Real.sin angle_change * arc_radius)
      (arc_radius - Real.cos angle_change * arc_radius)
      angle_change

/-- `NavCollisionChecker::integrateTwist` (lines 204–229): returns
`AngleAxisd(int_vec.z, UnitZ) * Translation3d(int_vec.x, int_vec.y, 0)`. -/
def integrateTwist (msg : Twist) (step_time : ℝ) : Affine3d :=
  let iv := intVec msg step_time
  affComp (Affine3d.mk (Vector3.mk 0 0 0) (angleAxisZ iv.z))
    (Affine3d.mk (Vector3.mk iv.x iv.y 0) quatId)

/-- The robot state's joint values by joint name (`robot_state_`). -/
abbrev RobotJoints := String → ℝ

/-- The external environment-model collision query
(`planning_scene_->checkCollision` given the AllowedCollisionMatrix):
a robot configuration either yields a collision verdict, or the query cannot
be completed (`Except.error`, a C++ exception the node never catches). -/
abbrev World := RobotJoints → Except Unit Bool

/-- `moveit::core::jointStateToRobotState`: merge named joint values into the
robot state, later entries overriding earlier ones. -/
def jointStateToRobotState (js : List (String × ℝ)) (rs : RobotJoints) : RobotJoints :=
  js.foldl (fun acc nv => Function.update acc nv.1 nv.2) rs

/-- The seven virtual-link joint names pushed in the constructor
(lines 60–66). -/
def virtualJointNames : List String :=
  ["world_virtual_joint/trans_x", "world_virtual_joint/trans_y",
   "world_virtual_joint/trans_z", "world_virtual_joint/rot_x",
   "world_virtual_joint/rot_y", "world_virtual_joint/rot_z",
   "world_virtual_joint/rot_w"]

/-- `virtual_link_joint_states_` as filled by `isInCollision` (lines 165–174):
the candidate pose's translation and quaternion components, paired with the
seven virtual-link joint names. -/
def virtualLinkJointState (pose : Affine3d) : List (String × ℝ) :=
  [("world_virtual_joint/trans_x", pose.translation.x),
   ("world_virtual_joint/trans_y", pose.translation.y),
   ("world_virtual_joint/trans_z", pose.translation.z),
   ("world_virtual_joint/rot_x", pose.rot.x),
   ("world_virtual_joint/rot_y", pose.rot.y),
   ("world_virtual_joint/rot_z", pose.rot.z),
   ("world_virtual_joint/rot_w", pose.rot.w)]

/-- The state update performed by `isInCollision` before querying: write the
candidate pose into the virtual-link joints of `robot_state_`. -/
def writeVirtualLink (pose : Affine3d) (rs : RobotJoints) : RobotJoints :=
  jointStateToRobotState (virtualLinkJointState pose) rs

/-- `NavCollisionChecker::isInCollision` (lines 163–201): writes the candidate
pose into the virtual-link joints of `robot_state_`, then queries the
planning scene; returns the collision flag together with the updated robot
state (mutated in place in C++). A failed query propagates. -/
def isInCollision (world : World) (rs : RobotJoints) (pose : Affine3d) :
    Except Unit (Bool × RobotJoints) :=
  let rs2 := writeVirtualLink pose rs
  match world rs2 with
  | Except.error e => Except.error e
  | Except.ok b => Except.ok (b, rs2)

/-- The dynamic-reconfigure parameters (`NavCollisionCheckerConfig`) and the
member fields `p_roll_out_step_time_`, `p_roll_out_steps_` (a C++ `int`),
`p_pass_through_`. -/
structure FilterConfig where
  roll_out_step_time : ℝ
  roll_out_steps : ℤ
  pass_through : Bool

/-- `NavCollisionChecker::dynRecParamCallback` (lines 255–260): the incoming
configuration is copied into the member fields unconditionally; the prior
configuration plays no role. -/
def dynRecParamCallback (config : FilterConfig) (prior : FilterConfig) : FilterConfig :=
  let _ := prior
  FilterConfig.mk config.roll_out_step_time config.roll_out_steps config.pass_through

/-- The implicit C++ conversion of the `int` member `p_roll_out_steps_` to
`size_t` in the loop condition `i < p_roll_out_steps_` (line 139): value
modulo 2^64. -/
def sizeTOfInt (n : ℤ) : ℕ := (n % (2 ^ 64 : ℤ)).toNat

/-- The observable effects of one `twistCallback` invocation:
the twist published on `cmd_vel_safe`, the marker poses published on the
marker topic (`none` when the early-return paths skip marker publication),
whether the throttled missing-pose warning fired, the blocking step index
(1-based) if any, and the number of collision-oracle queries performed. -/
structure TwistOutput where
  publishedTwist : Twist
  publishedMarkers : Option (List Affine3d)
  warned : Bool
  blockedAt : Option ℕ
  collisionChecks : ℕ

/-- The zeroed command produced on collision (lines 145–151): all six
linear/angular fields set to zero. (`geometry_msgs::Twist` has no other
fields.) -/
def zeroTwist : Twist := Twist.mk (Vector3.mk 0 0 0) (Vector3.mk 0 0 0)

/-- The rollout loop of `twistCallback` (lines 139–157), with the remaining
iteration count as fuel: advance the test pose by right-composing the pose
change, record a marker, query the collision oracle; on collision publish the
zero command and the markers and stop; on a failed query the exception
propagates; otherwise continue. -/
def rolloutLoop (world : World) (pose_change : Affine3d) (twist_out : Twist) :
    ℕ → Affine3d → RobotJoints → List Affine3d → ℕ → Except Unit TwistOutput
  | 0, _, _, ms, calls =>
      Except.ok (TwistOutput.mk twist_out (some ms) false none calls)
  | n + 1, test_pose, rs, ms, calls =>
      let tp2 := affComp test_pose pose_change
      let ms2 := ms ++ [tp2]
      match isInCollision world rs tp2 with
      | Except.error e => Except.error e
      | Except.ok (true, _) =>
          Except.ok (TwistOutput.mk zeroTwist (some ms2) false (some ms2.length) (calls + 1))
      | Except.ok (false, rs2) =>
          rolloutLoop world pose_change twist_out n tp2 rs2 ms2 (calls + 1)

/-- `NavCollisionChecker::twistCallback` (lines 115–161): copy the command;
if `p_pass_through_`, publish it unchanged; if no robot pose was ever
received, warn (throttled) and publish it unchanged; otherwise compute the
per-step pose change once and run the rollout loop from the last known pose,
with the loop bound `p_roll_out_steps_` converted to `size_t`. -/
def twistCallback (cfg : FilterConfig) (robot_pose : Option Affine3d)
    (rs : RobotJoints) (world : World) (msg : Twist) : Except Unit TwistOutput :=
  let twist_out := msg
  if cfg.pass_through then
    Except.ok (TwistOutput.mk twist_out none false none 0)
  else
    match robot_pose with
    | none => Except.ok (TwistOutput.mk twist_out none true none 0)
    | some test_pose =>
        let pose_change := integrateTwist msg cfg.roll_out_step_time
        rolloutLoop world pose_change twist_out (sizeTOfInt cfg.roll_out_steps)
          test_pose rs [] 0

/-- The test pose after `k` iterations of `test_pose = test_pose * pose_change`
starting from `tp` (left-nested, exactly as the loop computes it). -/
def poseAt (tp pc : Affine3d) : ℕ → Affine3d
  | 0 => tp
  | k + 1 => affComp (poseAt tp pc k) pc

/-- The marker poses recorded for steps 1..n of a rollout. -/
def traj (tp pc : Affine3d) (n : ℕ) : List Affine3d :=
  (List.range n).map (fun j => poseAt tp pc (j + 1))

/-- Pointwise value of the virtual-link write: one of the seven pose
components at the seven virtual joint names, the prior value elsewhere. -/
theorem writeVirtualLink_apply (pose : Affine3d) (rs : RobotJoints) (n : String) :
    writeVirtualLink pose rs n =
      if n = "world_virtual_joint/rot_w" then pose.rot.w
      else if n = "world_virtual_joint/rot_z" then pose.rot.z
      else if n = "world_virtual_joint/rot_y" then pose.rot.y
      else if n = "world_virtual_joint/rot_x" then pose.rot.x
      else if n = "world_virtual_joint/trans_z" then pose.translation.z
      else if n = "world_virtual_joint/trans_y" then pose.translation.y
      else if n = "world_virtual_joint/trans_x" then pose.translation.x
      else rs n := by
  simp only [writeVirtualLink, jointStateToRobotState, virtualLinkJointState,
    List.foldl_cons, List.foldl_nil, Function.update_apply]

/-- Writing the virtual link twice in a row: the second write overwrites all
seven slots, so the first is invisible. -/
theorem writeVirtualLink_absorb (p p2 : Affine3d) (rs : RobotJoints) :
    writeVirtualLink p (writeVirtualLink p2 rs) = writeVirtualLink p rs := by
  funext n
  simp only [writeVirtualLink_apply]
  split_ifs <;> rfl

/-- Shifting the start pose by one step. -/
theorem poseAt_shift (tp pc : Affine3d) (k : ℕ) :
    poseAt tp pc (k + 1) = poseAt (affComp tp pc) pc k := by
  induction k with
  | zero => rfl
  | succ k ih =>
      show affComp (poseAt tp pc (k + 1)) pc = affComp (poseAt (affComp tp pc) pc k) pc
      rw [ih]

/-- Unfolding one step of the marker trajectory. -/
theorem traj_succ_shift (tp pc : Affine3d) (n : ℕ) :
    traj tp pc (n + 1) = affComp tp pc :: traj (affComp tp pc) pc n := by
  have h0 : poseAt tp pc 1 = affComp tp pc := rfl
  simp only [traj, List.range_succ_eq_map, List.map_cons, List.map_map]
  refine congrArg₂ List.cons h0 ?_
  refine List.map_congr_left ?_
  intro j _
  show poseAt tp pc (j + 1 + 1) = poseAt (affComp tp pc) pc (j + 1)
  rw [poseAt_shift]

/-- When all `n` remaining steps are collision-free, the rollout loop runs to
the end, appends the `n` predicted poses to the markers, performs `n`
collision queries, and publishes the incoming command unchanged. -/
theorem rolloutLoop_clear (world : World) (pc : Affine3d) (cmd : Twist) :
    ∀ (n : ℕ) (tp : Affine3d) (rs : RobotJoints) (ms : List Affine3d) (calls : ℕ),
      (∀ j, j < n → world (writeVirtualLink (poseAt tp pc (j + 1)) rs) = Except.ok false) →
      rolloutLoop world pc cmd n tp rs ms calls =
        Except.ok (TwistOutput.mk cmd (some (ms ++ traj tp pc n)) false none (calls + n)) := by
  intro n
  induction n with
  | zero =>
      intro tp rs ms calls _
      simp [rolloutLoop, traj]
  | succ n ih =>
      intro tp rs ms calls h
      have h0 : world (writeVirtualLink (affComp tp pc) rs) = Except.ok false := by
        have := h 0 (Nat.succ_pos n)
        simpa [poseAt] using this
      have hrec : rolloutLoop world pc cmd (n + 1) tp rs ms calls =
          rolloutLoop world pc cmd n (affComp tp pc)
            (writeVirtualLink (affComp tp pc) rs) (ms ++ [affComp tp pc]) (calls + 1) := by
        simp [rolloutLoop, isInCollision, h0]
      have htail : ∀ j, j < n →
          world (writeVirtualLink (poseAt (affComp tp pc) pc (j + 1))
            (writeVirtualLink (affComp tp pc) rs)) = Except.ok false := by
        intro j hj
        rw [writeVirtualLink_absorb, ← poseAt_shift]
        exact h (j + 1) (Nat.succ_lt_succ hj)
      rw [hrec, ih (affComp tp pc) (writeVirtualLink (affComp tp pc) rs)
        (ms ++ [affComp tp pc]) (calls + 1) htail]
      have ht : traj tp pc (n + 1) = affComp tp pc :: traj (affComp tp pc) pc n :=
        traj_succ_shift tp pc n
      rw [ht]
      have harith : calls + 1 + n = calls + (n + 1) := by omega
      rw [harith]
      simp

/-- When the first `k` steps are collision-free and step `k + 1` collides
(and enough fuel remains), the rollout loop stops right there: it records
exactly the first `k + 1` predicted poses, performs exactly `k + 1` collision
queries, reports the blocking step index, and publishes the zero command. -/
theorem rolloutLoop_blocked (world : World) (pc : Affine3d) (cmd : Twist) :
    ∀ (k n : ℕ) (tp : Affine3d) (rs : RobotJoints) (ms : List Affine3d) (calls : ℕ),
      k < n →
      (∀ j, j < k → world (writeVirtualLink (poseAt tp pc (j + 1)) rs) = Except.ok false) →
      world (writeVirtualLink (poseAt tp pc (k + 1)) rs) = Except.ok true →
      rolloutLoop world pc cmd n tp rs ms calls =
        Except.ok (TwistOutput.mk zeroTwist (some (ms ++ traj tp pc (k + 1))) false
          (some (ms.length + (k + 1))) (calls + (k + 1))) := by
  intro k
  induction k with
  | zero =>
      intro n tp rs ms calls hkn _ hhit
      obtain ⟨m, rfl⟩ : ∃ m, n = m + 1 := ⟨n - 1, by omega⟩
      have h1 : world (writeVirtualLink (affComp tp pc) rs) = Except.ok true := by
        simpa [poseAt] using hhit
      have htraj : traj tp pc 1 = [affComp tp pc] := by
        rw [traj_succ_shift]
        simp [traj]
      simp [rolloutLoop, isInCollision, h1, htraj]
  | succ k ih =>
      intro n tp rs ms calls hkn hclear hhit
      obtain ⟨m, rfl⟩ : ∃ m, n = m + 1 := ⟨n - 1, by omega⟩
      have h0 : world (writeVirtualLink (affComp tp pc) rs) = Except.ok false := by
        have := hclear 0 (Nat.succ_pos k)
        simpa [poseAt] using this
      have hrec : rolloutLoop world pc cmd (m + 1) tp rs ms calls =
          rolloutLoop world pc cmd m (affComp tp pc)
            (writeVirtualLink (affComp tp pc) rs) (ms ++ [affComp tp pc]) (calls + 1) := by
        simp [rolloutLoop, isInCollision, h0]
      have htail : ∀ j, j < k →
          world (writeVirtualLink (poseAt (affComp tp pc) pc (j + 1))
            (writeVirtualLink (affComp tp pc) rs)) = Except.ok false := by
        intro j hj
        rw [writeVirtualLink_absorb, ← poseAt_shift]
        exact hclear (j + 1) (Nat.succ_lt_succ hj)
      have hhit2 : world (writeVirtualLink (poseAt (affComp tp pc) pc (k + 1))
          (writeVirtualLink (affComp tp pc) rs)) = Except.ok true := by
        rw [writeVirtualLink_absorb, ← poseAt_shift]
        exact hhit
      rw [hrec, ih m (affComp tp pc) (writeVirtualLink (affComp tp pc) rs)
        (ms ++ [affComp tp pc]) (calls + 1) (by omega) htail hhit2]
      have ht : traj tp pc (k + 1 + 1) = affComp tp pc :: traj (affComp tp pc) pc (k + 1) :=
        traj_succ_shift tp pc (k + 1)
      rw [ht]
      have hlen : (ms ++ [affComp tp pc]).length = ms.length + 1 := by simp
      rw [hlen]
      have harith1 : ms.length + 1 + (k + 1) = ms.length + (k + 1 + 1) := by omega
      have harith2 : calls + 1 + (k + 1) = calls + (k + 1 + 1) := by omega
      rw [harith1, harith2]
      simp

/-- Claim C1: for every velocity command and every rollout in which some step
`k` (1 ≤ k ≤ horizon) is the first predicted pose reported in collision, the
filter emits a command whose six linear/angular fields are all zero (the
command has no other fields), records exactly the first `k` predicted poses,
reports BLOCKED-AT-STEP-`k`, and performs exactly `k` collision queries — no
step after `k` is evaluated (early exit). -/
theorem C1_blocked_early_exit (cfg : FilterConfig) (rp : Affine3d) (rs : RobotJoints)
    (world : World) (msg : Twist) (k : ℕ)
    (hpt : cfg.pass_through = false)
    (hk : 1 ≤ k) (hkn : k ≤ sizeTOfInt cfg.roll_out_steps)
    (hclear : ∀ j, 1 ≤ j → j < k →
      world (writeVirtualLink (poseAt rp (integrateTwist msg cfg.roll_out_step_time) j) rs) =
        Except.ok false)
    (hhit : world (writeVirtualLink (poseAt rp (integrateTwist msg cfg.roll_out_step_time) k) rs) =
        Except.ok true) :
    twistCallback cfg (some rp) rs world msg =
      Except.ok (TwistOutput.mk zeroTwist
        (some (traj rp (integrateTwist msg cfg.roll_out_step_time) k)) false (some k) k) := by
  obtain ⟨k2, rfl⟩ : ∃ k2, k = k2 + 1 := ⟨k - 1, by omega⟩
  have hcb : twistCallback cfg (some rp) rs world msg =
      rolloutLoop world (integrateTwist msg cfg.roll_out_step_time) msg
        (sizeTOfInt cfg.roll_out_steps) rp rs [] 0 := by
    simp [twistCallback, hpt]
  rw [hcb, rolloutLoop_blocked world (integrateTwist msg cfg.roll_out_step_time) msg k2
    (sizeTOfInt cfg.roll_out_steps) rp rs [] 0 (by omega)
    (fun j hj => hclear (j + 1) (by omega) (by omega)) hhit]
  simp

/-- Witness for C1 at a concrete input: horizon 1, an always-colliding
environment; the filter blocks at step 1 with one collision query. -/
theorem C1_blocked_early_exit_witness :
    twistCallback (FilterConfig.mk 1 1 false) (some affId) (fun _ => 0)
      (fun _ => Except.ok true) (Twist.mk (Vector3.mk 1 0 0) (Vector3.mk 0 0 0)) =
      Except.ok (TwistOutput.mk zeroTwist
        (some (traj affId
          (integrateTwist (Twist.mk (Vector3.mk 1 0 0) (Vector3.mk 0 0 0)) 1) 1))
        false (some 1) 1) :=
  C1_blocked_early_exit (FilterConfig.mk 1 1 false) affId (fun _ => 0)
    (fun _ => Except.ok true) (Twist.mk (Vector3.mk 1 0 0) (Vector3.mk 0 0 0)) 1
    rfl (by norm_num) (by norm_num [sizeTOfInt])
    (fun j h1 h2 => absurd (lt_of_le_of_lt h1 h2) (lt_irrefl 1)) rfl

/-- Claim C8: for every command and every rollout in which no evaluated step
is in collision — including a zero-step horizon, where no steps are evaluated
at all — the filter emits the original command unchanged (CLEAR), together
with the full predicted trajectory. -/
theorem C8_clear_unchanged (cfg : FilterConfig) (rp : Affine3d) (rs : RobotJoints)
    (world : World) (msg : Twist)
    (hpt : cfg.pass_through = false)
    (hclear : ∀ j, 1 ≤ j → j ≤ sizeTOfInt cfg.roll_out_steps →
      world (writeVirtualLink (poseAt rp (integrateTwist msg cfg.roll_out_step_time) j) rs) =
        Except.ok false) :
    twistCallback cfg (some rp) rs world msg =
      Except.ok (TwistOutput.mk msg
        (some (traj rp (integrateTwist msg cfg.roll_out_step_time)
          (sizeTOfInt cfg.roll_out_steps)))
        false none (sizeTOfInt cfg.roll_out_steps)) := by
  have hcb : twistCallback cfg (some rp) rs world msg =
      rolloutLoop world (integrateTwist msg cfg.roll_out_step_time) msg
        (sizeTOfInt cfg.roll_out_steps) rp rs [] 0 := by
    simp [twistCallback, hpt]
  rw [hcb, rolloutLoop_clear world (integrateTwist msg cfg.roll_out_step_time) msg
    (sizeTOfInt cfg.roll_out_steps) rp rs [] 0
    (fun j hj => hclear (j + 1) (by omega) (by omega))]
  simp

/-- Witness for C8 at the degenerate input horizon = 0: no step is evaluated
and the command is still emitted unchanged. -/
theorem C8_clear_unchanged_witness :
    twistCallback (FilterConfig.mk 1 0 false) (some affId) (fun _ => 0)
      (fun _ => Except.ok true) (Twist.mk (Vector3.mk 1 0 0) (Vector3.mk 0 0 0)) =
      Except.ok (TwistOutput.mk (Twist.mk (Vector3.mk 1 0 0) (Vector3.mk 0 0 0))
        (some []) false none 0) :=
  C8_clear_unchanged (FilterConfig.mk 1 0 false) affId (fun _ => 0)
    (fun _ => Except.ok true) (Twist.mk (Vector3.mk 1 0 0) (Vector3.mk 0 0 0))
    rfl (by intro j h1 h2; simp [sizeTOfInt] at h2; omega)

/-- Claim C6: for every command, if no robot pose has ever been received (and
the pass-through bypass is not engaged), the filter emits the command
unchanged, for every environment, and reports the (rate-limited) warning;
no collision query is made. -/
theorem C6_fail_open_no_pose (cfg : FilterConfig) (rs : RobotJoints) (world : World)
    (msg : Twist) (hpt : cfg.pass_through = false) :
    twistCallback cfg none rs world msg =
      Except.ok (TwistOutput.mk msg none true none 0) := by
  simp [twistCallback, hpt]

/-- Witness for C6 at a concrete input, with an always-colliding environment:
the command is still forwarded unchanged. -/
theorem C6_fail_open_no_pose_witness :
    twistCallback (FilterConfig.mk 1 5 false) none (fun _ => 0)
      (fun _ => Except.ok true) (Twist.mk (Vector3.mk 1 0 0) (Vector3.mk 0 0 2)) =
      Except.ok (TwistOutput.mk (Twist.mk (Vector3.mk 1 0 0) (Vector3.mk 0 0 2))
        none true none 0) :=
  C6_fail_open_no_pose (FilterConfig.mk 1 5 false) (fun _ => 0)
    (fun _ => Except.ok true) (Twist.mk (Vector3.mk 1 0 0) (Vector3.mk 0 0 2)) rfl

/-- Claim C7: for every command, if the configuration's pass_through flag is
set, the filter emits the command unchanged and terminates immediately — for
every environment (in particular one where step 1 would collide) and every
pose state; no collision query is made. -/
theorem C7_pass_through_bypass (cfg : FilterConfig) (robot_pose : Option Affine3d)
    (rs : RobotJoints) (world : World) (msg : Twist)
    (hpt : cfg.pass_through = true) :
    twistCallback cfg robot_pose rs world msg =
      Except.ok (TwistOutput.mk msg none false none 0) := by
  simp [twistCallback, hpt]

/-- Witness for C7 at a concrete input whose environment collides at step 1:
the command is still forwarded unchanged with zero collision queries. -/
theorem C7_pass_through_bypass_witness :
    twistCallback (FilterConfig.mk 1 5 true) (some affId) (fun _ => 0)
      (fun _ => Except.ok true) (Twist.mk (Vector3.mk 1 0 0) (Vector3.mk 0 0 0)) =
      Except.ok (TwistOutput.mk (Twist.mk (Vector3.mk 1 0 0) (Vector3.mk 0 0 0))
        none false none 0) :=
  C7_pass_through_bypass (FilterConfig.mk 1 5 true) (some affId) (fun _ => 0)
    (fun _ => Except.ok true) (Twist.mk (Vector3.mk 1 0 0) (Vector3.mk 0 0 0)) rfl

/-- Claim C10: for every negative horizon value (in the C++ `int` range), the
rollout loop's bound comparison converts the signed step count to `size_t`
modulo 2^64, so the loop evaluates at least one step — and, absent an early
collision exit, an enormous number of steps equal to `2^64 + horizon` —
instead of degenerating to zero evaluated steps. -/
theorem C10_negative_horizon_wraps (cfg : FilterConfig) (rp : Affine3d) (rs : RobotJoints)
    (world : World) (msg : Twist)
    (hpt : cfg.pass_through = false)
    (hneg : cfg.roll_out_steps < 0) (hrange : -(2 ^ 31) ≤ cfg.roll_out_steps)
    (hclear : ∀ c, world c = Except.ok false) :
    sizeTOfInt cfg.roll_out_steps = ((2 ^ 64 : ℤ) + cfg.roll_out_steps).toNat ∧
    1 ≤ sizeTOfInt cfg.roll_out_steps ∧
    twistCallback cfg (some rp) rs world msg =
      Except.ok (TwistOutput.mk msg
        (some (traj rp (integrateTwist msg cfg.roll_out_step_time)
          (sizeTOfInt cfg.roll_out_steps)))
        false none (sizeTOfInt cfg.roll_out_steps)) := by
  have h64 : (2 : ℤ) ^ 64 = 18446744073709551616 := by norm_num
  have h31 : (2 : ℤ) ^ 31 = 2147483648 := by norm_num
  rw [h31] at hrange
  refine ⟨?_, ?_, ?_⟩
  · unfold sizeTOfInt
    rw [h64]
    omega
  · unfold sizeTOfInt
    rw [h64]
    omega
  · have hcb : twistCallback cfg (some rp) rs world msg =
        rolloutLoop world (integrateTwist msg cfg.roll_out_step_time) msg
          (sizeTOfInt cfg.roll_out_steps) rp rs [] 0 := by
      simp [twistCallback, hpt]
    rw [hcb, rolloutLoop_clear world (integrateTwist msg cfg.roll_out_step_time) msg
      (sizeTOfInt cfg.roll_out_steps) rp rs [] 0 (fun j _ => hclear _)]
    simp

/-- Witness for C10 at the concrete horizon −5: the loop bound becomes
2^64 − 5, not zero. -/
theorem C10_negative_horizon_wraps_witness :
    sizeTOfInt (-5) = ((2 ^ 64 : ℤ) + (-5)).toNat ∧
    1 ≤ sizeTOfInt (-5) ∧
    twistCallback (FilterConfig.mk 1 (-5) false) (some affId) (fun _ => 0)
      (fun _ => Except.ok false) (Twist.mk (Vector3.mk 1 0 0) (Vector3.mk 0 0 0)) =
      Except.ok (TwistOutput.mk (Twist.mk (Vector3.mk 1 0 0) (Vector3.mk 0 0 0))
        (some (traj affId
          (integrateTwist (Twist.mk (Vector3.mk 1 0 0) (Vector3.mk 0 0 0)) 1)
          (sizeTOfInt (-5))))
        false none (sizeTOfInt (-5))) :=
  C10_negative_horizon_wraps (FilterConfig.mk 1 (-5) false) affId (fun _ => 0)
    (fun _ => Except.ok false) (Twist.mk (Vector3.mk 1 0 0) (Vector3.mk 0 0 0))
    rfl (by norm_num) (by norm_num) (fun c => rfl)

/-- Claim C3 (code evidence at the failing input): with a rollout whose first
environment query cannot be completed, `twistCallback` propagates the failure
(the uncaught C++ exception) and publishes nothing at all — in particular it
does not emit the zero command the claim requires. -/
theorem C3_query_failure_no_publish :
    twistCallback (FilterConfig.mk 1 1 false) (some affId) (fun _ => 0)
      (fun _ => Except.error ()) (Twist.mk (Vector3.mk 1 0 0) (Vector3.mk 0 0 0)) =
      Except.error () ∧
    ∀ out : TwistOutput,
      twistCallback (FilterConfig.mk 1 1 false) (some affId) (fun _ => 0)
        (fun _ => Except.error ()) (Twist.mk (Vector3.mk 1 0 0) (Vector3.mk 0 0 0)) ≠
        Except.ok out := by
  have h1 : sizeTOfInt 1 = 1 := by norm_num [sizeTOfInt]
  have hmain : twistCallback (FilterConfig.mk 1 1 false) (some affId) (fun _ => 0)
      (fun _ => Except.error ()) (Twist.mk (Vector3.mk 1 0 0) (Vector3.mk 0 0 0)) =
      Except.error () := by
    simp [twistCallback, h1, rolloutLoop, isInCollision]
  refine ⟨hmain, fun out h => ?_⟩
  rw [hmain] at h
  exact Except.noConfusion h

/-- Claim C4 (code evidence at the failing input): a configuration update
with non-positive step_time (−1) and negative horizon (−5) is stored
verbatim by `dynRecParamCallback`; the prior valid configuration is not
retained. -/
theorem C4_invalid_config_accepted :
    dynRecParamCallback (FilterConfig.mk (-1) (-5) false) (FilterConfig.mk (1 / 2) 10 false) =
      FilterConfig.mk (-1) (-5) false ∧
    dynRecParamCallback (FilterConfig.mk (-1) (-5) false) (FilterConfig.mk (1 / 2) 10 false) ≠
      FilterConfig.mk (1 / 2) 10 false := by
  refine ⟨rfl, fun h => ?_⟩
  have h2 : (-5 : ℤ) = 10 := by
    simpa [dynRecParamCallback] using congrArg FilterConfig.roll_out_steps h
  exact absurd h2 (by norm_num)

/-- Claim C5: for every command and positive step_time, the motion predictor
with angular rate below the fixed epsilon 0.0001 returns a pure forward
translation of length `linear_velocity * step_time` with zero lateral and
angular change; otherwise its integrated (x, y, theta) vector is the
circular-arc displacement `(sin(angle) * radius, radius - cos(angle) *
radius)` with heading change `angle`, where `distance = linear_velocity *
step_time`, `angle = angular_velocity * step_time`, `radius = distance /
angle`; the returned transform's rotation is by exactly that heading
change about the vertical axis. -/
theorem C5_motion_predictor (msg : Twist) (t : ℝ) (ht : 0 < t) :
    (|msg.angular.z| < 0.0001 →
      integrateTwist msg t = Affine3d.mk (Vector3.mk (msg.linear.x * t) 0 0) quatId) ∧
    (¬ |msg.angular.z| < 0.0001 →
      intVec msg t = Vector3.mk
        (Real.sin (msg.angular.z * t) * ((msg.linear.x * t) / (msg.angular.z * t)))
        ((msg.linear.x * t) / (msg.angular.z * t) -
          Real.cos (msg.angular.z * t) * ((msg.linear.x * t) / (msg.angular.z * t)))
        (msg.angular.z * t) ∧
      (integrateTwist msg t).rot = angleAxisZ (msg.angular.z * t)) := by
  constructor
  · intro hw
    simp only [integrateTwist, intVec, if_pos hw]
    simp [angleAxisZ, affComp, vadd, quatApply, quatMul, quatId]
  · intro hw
    refine ⟨by simp [intVec, hw], ?_⟩
    simp only [integrateTwist, intVec, if_neg hw]
    simp [affComp, quatMul, quatId, angleAxisZ]

/-- Witness for C5 at a concrete input in the straight-line branch:
linear 2, angular 0, step_time 3 gives a pure forward translation of 6. -/
theorem C5_motion_predictor_witness :
    integrateTwist (Twist.mk (Vector3.mk 2 0 0) (Vector3.mk 0 0 0)) 3 =
      Affine3d.mk (Vector3.mk (2 * 3) 0 0) quatId :=
  (C5_motion_predictor (Twist.mk (Vector3.mk 2 0 0) (Vector3.mk 0 0 0)) 3
    (by norm_num)).1 (by norm_num)

/-- Claim C2 is false of the code at a concrete input: for the command
(linear 1, angular 1) and step_time π, the relative transform's translation
component (expressed in the start-of-step frame) is (0, −2, 0), not the
planar displacement (sin(angle)·radius, radius − cos(angle)·radius, 0) =
(0, 2, 0): `integrateTwist` composes the heading rotation to the left of the
translation, so the displacement appears rotated by the full step angle. -/
theorem C2_translation_counterexample :
    (integrateTwist (Twist.mk (Vector3.mk 1 0 0) (Vector3.mk 0 0 1)) Real.pi).translation ≠
      Vector3.mk (Real.sin (1 * Real.pi) * ((1 * Real.pi) / (1 * Real.pi)))
        ((1 * Real.pi) / (1 * Real.pi) -
          Real.cos (1 * Real.pi) * ((1 * Real.pi) / (1 * Real.pi)))
        0 := by
  intro h
  have hne : ¬ |(1 : ℝ)| < 0.0001 := by norm_num
  have hpi : Real.pi / Real.pi = 1 := div_self Real.pi_ne_zero
  simp only [integrateTwist, intVec, one_mul, if_neg hne, hpi, Real.sin_pi, Real.cos_pi,
    angleAxisZ, affComp, vadd, quatApply, quatId, Real.sin_pi_div_two, Real.cos_pi_div_two,
    Vector3.mk.injEq] at h
  norm_num at h

/-- Claim C2, amended: for commands with above-epsilon angular rate, the
per-step relative transform is the heading rotation composed (on the left)
with the planar displacement, so its translation component, expressed in the
start-of-step frame, equals the rotation by `angle` applied to
`(sin(angle)·radius, radius − cos(angle)·radius, 0)`; its rotation is by
`angle` about the vertical axis; and the transform is right-composed onto the
current test pose, so repeated composition accumulates a curved path. -/
theorem C2_amended_rotated_displacement (msg : Twist) (t : ℝ) (rp : Affine3d) (j : ℕ)
    (hw : ¬ |msg.angular.z| < 0.0001) (ht : 0 < t) :
    (integrateTwist msg t).translation =
      quatApply (angleAxisZ (msg.angular.z * t))
        (Vector3.mk
          (Real.sin (msg.angular.z * t) * ((msg.linear.x * t) / (msg.angular.z * t)))
          ((msg.linear.x * t) / (msg.angular.z * t) -
            Real.cos (msg.angular.z * t) * ((msg.linear.x * t) / (msg.angular.z * t)))
          0) ∧
    (integrateTwist msg t).rot = angleAxisZ (msg.angular.z * t) ∧
    poseAt rp (integrateTwist msg t) (j + 1) =
      affComp (poseAt rp (integrateTwist msg t) j) (integrateTwist msg t) := by
  refine ⟨?_, ?_, rfl⟩
  · simp only [integrateTwist, intVec, if_neg hw]
    simp [affComp, vadd, quatApply]
  · simp only [integrateTwist, intVec, if_neg hw]
    simp [affComp, quatMul, quatId, angleAxisZ]

/-- Witness for the amended C2 at the same concrete input (linear 1,
angular 1, step_time π, start pose the identity, step 0 → 1). -/
theorem C2_amended_rotated_displacement_witness :
    (integrateTwist (Twist.mk (Vector3.mk 1 0 0) (Vector3.mk 0 0 1)) Real.pi).translation =
      quatApply (angleAxisZ (1 * Real.pi))
        (Vector3.mk (Real.sin (1 * Real.pi) * ((1 * Real.pi) / (1 * Real.pi)))
          ((1 * Real.pi) / (1 * Real.pi) -
            Real.cos (1 * Real.pi) * ((1 * Real.pi) / (1 * Real.pi)))
          0) ∧
    (integrateTwist (Twist.mk (Vector3.mk 1 0 0) (Vector3.mk 0 0 1)) Real.pi).rot =
      angleAxisZ (1 * Real.pi) ∧
    poseAt affId (integrateTwist (Twist.mk (Vector3.mk 1 0 0) (Vector3.mk 0 0 1)) Real.pi)
        (0 + 1) =
      affComp (poseAt affId
        (integrateTwist (Twist.mk (Vector3.mk 1 0 0) (Vector3.mk 0 0 1)) Real.pi) 0)
        (integrateTwist (Twist.mk (Vector3.mk 1 0 0) (Vector3.mk 0 0 1)) Real.pi) :=
  C2_amended_rotated_displacement (Twist.mk (Vector3.mk 1 0 0) (Vector3.mk 0 0 1))
    Real.pi affId 0 (by norm_num) Real.pi_pos

/-- Claim C9: for every candidate pose and joint configuration, the collision
check writes exactly the candidate pose's translation and orientation — a
unit quaternion when the pose's rotation is one — into the seven virtual-link
entries of the joint configuration, and leaves every other joint value
unchanged. -/
theorem C9_virtual_link_write (world : World) (pose : Affine3d) (rs : RobotJoints)
    (b : Bool) (rs2 : RobotJoints) (n : String)
    (hcall : isInCollision world rs pose = Except.ok (b, rs2))
    (hn : ¬ n ∈ virtualJointNames)
    (hunit : quatNormSq pose.rot = 1) :
    rs2 "world_virtual_joint/trans_x" = pose.translation.x ∧
    rs2 "world_virtual_joint/trans_y" = pose.translation.y ∧
    rs2 "world_virtual_joint/trans_z" = pose.translation.z ∧
    rs2 "world_virtual_joint/rot_x" = pose.rot.x ∧
    rs2 "world_virtual_joint/rot_y" = pose.rot.y ∧
    rs2 "world_virtual_joint/rot_z" = pose.rot.z ∧
    rs2 "world_virtual_joint/rot_w" = pose.rot.w ∧
    rs2 n = rs n ∧
    rs2 "world_virtual_joint/rot_x" ^ 2 + rs2 "world_virtual_joint/rot_y" ^ 2 +
      rs2 "world_virtual_joint/rot_z" ^ 2 + rs2 "world_virtual_joint/rot_w" ^ 2 = 1 := by
  have hrs2 : rs2 = writeVirtualLink pose rs := by
    simp only [isInCollision] at hcall
    revert hcall
    cases world (writeVirtualLink pose rs) with
    | error e => intro hcall; exact absurd hcall (by simp)
    | ok bb =>
        intro hcall
        simp only [Except.ok.injEq, Prod.mk.injEq] at hcall
        exact hcall.2.symm
  subst hrs2
  simp only [virtualJointNames, List.mem_cons, List.not_mem_nil, or_false] at hn
  push_neg at hn
  obtain ⟨hn1, hn2, hn3, hn4, hn5, hn6, hn7⟩ := hn
  refine ⟨?_, ?_, ?_, ?_, ?_, ?_, ?_, ?_, ?_⟩ <;>
    simp [writeVirtualLink_apply, hn1, hn2, hn3, hn4, hn5, hn6, hn7]
  simpa [quatNormSq] using hunit

/-- Witness for C9 at a concrete input: the identity pose written over an
all-zero joint configuration; the joint "arm_joint" is untouched. -/
theorem C9_virtual_link_write_witness :
    writeVirtualLink affId (fun _ => 0) "world_virtual_joint/trans_x" = affId.translation.x ∧
    writeVirtualLink affId (fun _ => 0) "world_virtual_joint/trans_y" = affId.translation.y ∧
    writeVirtualLink affId (fun _ => 0) "world_virtual_joint/trans_z" = affId.translation.z ∧
    writeVirtualLink affId (fun _ => 0) "world_virtual_joint/rot_x" = affId.rot.x ∧
    writeVirtualLink affId (fun _ => 0) "world_virtual_joint/rot_y" = affId.rot.y ∧
    writeVirtualLink affId (fun _ => 0) "world_virtual_joint/rot_z" = affId.rot.z ∧
    writeVirtualLink affId (fun _ => 0) "world_virtual_joint/rot_w" = affId.rot.w ∧
    writeVirtualLink affId (fun _ => 0) "arm_joint" = (0 : ℝ) ∧
    writeVirtualLink affId (fun _ => 0) "world_virtual_joint/rot_x" ^ 2 +
      writeVirtualLink affId (fun _ => 0) "world_virtual_joint/rot_y" ^ 2 +
      writeVirtualLink affId (fun _ => 0) "world_virtual_joint/rot_z" ^ 2 +
      writeVirtualLink affId (fun _ => 0) "world_virtual_joint/rot_w" ^ 2 = 1 :=
  C9_virtual_link_write (fun _ => Except.ok false) affId (fun _ => 0) false
    (writeVirtualLink affId (fun _ => 0)) "arm_joint" rfl (by decide)
    (by norm_num [quatNormSq, affId, quatId])

end NavCollisionChecker

end
